import Mathlib

/-!
Verification of the pattern-loading and grid-placement component of the
2143-OOP repository (src/Assignments/Program_02_SDL_Render/main.cpp and
src/Assignments/Program_00_Install_and_Compile/main.cpp).

The C++ program is embedded shallowly:
* `Cell`, `Shape` mirror the structs at main.cpp lines 13-23.
* `computeBoundingBox` mirrors the zero-seeded min/max fold at lines 87-93.
* `patternCellWidth`/`patternCellHeight` mirror lines 94-95.
* `computeCenteringOffset` mirrors lines 145-146 (C++ `/` on int is
  truncating division, i.e. `Int.tdiv`).
* `toPixelRects` mirrors the rectangle loop at lines 170-178.
* `Json` and the access functions model the vendored nlohmann::json
  library (an external dependency, used through `json.hpp`): objects are
  stored in a `std::map` ordered lexicographically by key; non-const
  `operator[]` on a missing key yields `null`; iterating `null` yields an
  empty range; converting a non-number to `int` throws a type error.
* `mainP02` / `mainP00` embed the control flow of the two `main`
  functions, with the external SDL calls abstracted as boolean oracles.
-/

namespace GameOfLife

/-- Cell struct from main.cpp lines 13-16: a signed integer coordinate pair. -/
structure Cell where
  x : Int
  y : Int
deriving DecidableEq

/-- Shape struct from main.cpp lines 18-23. -/
structure Shape where
  name : String
  width : Int
  height : Int
  cells : List Cell
deriving DecidableEq

/-- Bounding box accumulator `(min_x, max_x, min_y, max_y)` from main.cpp line 87. -/
structure BBox where
  minX : Int
  maxX : Int
  minY : Int
  maxY : Int
deriving DecidableEq

/-- One iteration of the bounding-box loop at main.cpp lines 88-93. -/
def stepBB (bb : BBox) (c : Cell) : BBox :=
  { minX := min bb.minX c.x
    maxX := max bb.maxX c.x
    minY := min bb.minY c.y
    maxY := max bb.maxY c.y }

/-- ComputeBoundingBox: the loop at main.cpp lines 87-93, with all four
accumulators seeded at 0. -/
def computeBoundingBox (cells : List Cell) : BBox :=
  cells.foldl stepBB { minX := 0, maxX := 0, minY := 0, maxY := 0 }

/-- patternCellWidth, main.cpp line 94. -/
def patternCellWidth (bb : BBox) : Int :=
  bb.maxX - bb.minX + 1

/-- patternCellHeight, main.cpp line 95. -/
def patternCellHeight (bb : BBox) : Int :=
  bb.maxY - bb.minY + 1

/-- ComputeCenteringOffset: main.cpp lines 145-146.  C++ `/` on `int`
truncates toward zero, which is `Int.tdiv`. -/
def computeCenteringOffset (gridW gridH patW patH : Int) : Int × Int :=
  (Int.tdiv (gridW - patW) 2, Int.tdiv (gridH - patH) 2)

/-- SDL_Rect as filled at main.cpp line 177. -/
structure Rect where
  x : Int
  y : Int
  w : Int
  h : Int
deriving DecidableEq

/-- ToPixelRects: the rectangle loop at main.cpp lines 170-178.  Each cell is
shifted by the bounding-box minimum, offset by the centering offset, and
scaled by the cell size. -/
def toPixelRects (cells : List Cell) (minX minY offX offY cellSize : Int) :
    List Rect :=
  cells.map fun c =>
    let gx := c.x - minX + offX
    let gy := c.y - minY + offY
    { x := gx * cellSize, y := gy * cellSize, w := cellSize, h := cellSize }

/-- Folding the bounding-box step never raises the minima above the seed and
never lowers the maxima below the seed. -/
lemma foldBB_le_init (cells : List Cell) (bb : BBox) :
    (cells.foldl stepBB bb).minX ≤ bb.minX ∧ bb.maxX ≤ (cells.foldl stepBB bb).maxX ∧
    (cells.foldl stepBB bb).minY ≤ bb.minY ∧ bb.maxY ≤ (cells.foldl stepBB bb).maxY := by
  induction cells generalizing bb with
  | nil => exact ⟨le_refl _, le_refl _, le_refl _, le_refl _⟩
  | cons hd tl ih =>
    obtain ⟨h1, h2, h3, h4⟩ := ih (stepBB bb hd)
    refine ⟨le_trans h1 ?_, le_trans ?_ h2, le_trans h3 ?_, le_trans ?_ h4⟩
    · exact min_le_left _ _
    · exact le_max_left _ _
    · exact min_le_left _ _
    · exact le_max_left _ _

/-- Every cell visited by the bounding-box fold ends up inside the resulting
box. -/
lemma foldBB_mem (cells : List Cell) (bb : BBox) (c : Cell) (hc : c ∈ cells) :
    (cells.foldl stepBB bb).minX ≤ c.x ∧ c.x ≤ (cells.foldl stepBB bb).maxX ∧
    (cells.foldl stepBB bb).minY ≤ c.y ∧ c.y ≤ (cells.foldl stepBB bb).maxY := by
  induction cells generalizing bb with
  | nil => cases hc
  | cons hd tl ih =>
    rcases List.mem_cons.mp hc with rfl | hmem
    · obtain ⟨h1, h2, h3, h4⟩ := foldBB_le_init tl (stepBB bb c)
      refine ⟨le_trans h1 ?_, le_trans ?_ h2, le_trans h3 ?_, le_trans ?_ h4⟩
      · exact min_le_right _ _
      · exact le_max_right _ _
      · exact min_le_right _ _
      · exact le_max_right _ _
    · exact ih (stepBB bb hd) hmem

/-- If the seed minima already lie below every visited coordinate, the fold
leaves them unchanged. -/
lemma foldBB_min_frozen (cells : List Cell) (bb : BBox)
    (hx : ∀ c ∈ cells, bb.minX ≤ c.x) (hy : ∀ c ∈ cells, bb.minY ≤ c.y) :
    (cells.foldl stepBB bb).minX = bb.minX ∧ (cells.foldl stepBB bb).minY = bb.minY := by
  induction cells generalizing bb with
  | nil => exact ⟨rfl, rfl⟩
  | cons hd tl ih =>
    have hminx : min bb.minX hd.x = bb.minX :=
      min_eq_left (hx hd (List.mem_cons_self hd tl))
    have hminy : min bb.minY hd.y = bb.minY :=
      min_eq_left (hy hd (List.mem_cons_self hd tl))
    have step_eq : (stepBB bb hd).minX = bb.minX ∧ (stepBB bb hd).minY = bb.minY := by
      simp [stepBB, hminx, hminy]
    obtain ⟨e1, e2⟩ := step_eq
    have := ih (stepBB bb hd)
      (fun c hc => e1 ▸ hx c (List.mem_cons_of_mem hd hc))
      (fun c hc => e2 ▸ hy c (List.mem_cons_of_mem hd hc))
    simp only [List.foldl_cons]
    exact ⟨this.1.trans e1, this.2.trans e2⟩

/-- C1: `ComputeCenteringOffset` computes `(grid_dim - pattern_dim) / 2` with
C-style truncating integer division (which agrees with floor division
whenever `grid_dim - pattern_dim` is nonnegative), the result may be
negative when the pattern dimension exceeds the grid dimension, and no
clamping is applied: a grid of 30 against a pattern of 33 yields the
unclamped offset `-1`. -/
theorem computeCenteringOffset_truncating :
    (∀ gridW gridH patW patH : Int,
      computeCenteringOffset gridW gridH patW patH =
        (Int.tdiv (gridW - patW) 2, Int.tdiv (gridH - patH) 2)) ∧
    (∀ gridW patW : Int, 0 ≤ gridW - patW →
      (computeCenteringOffset gridW gridW patW patW).1 = Int.fdiv (gridW - patW) 2) ∧
    computeCenteringOffset 30 30 33 33 = (-1, -1) := by
  refine ⟨fun _ _ _ _ => rfl, fun gridW patW h => ?_, by decide⟩
  show Int.tdiv (gridW - patW) 2 = Int.fdiv (gridW - patW) 2
  rw [Int.tdiv_eq_ediv h (by decide), Int.fdiv_eq_ediv _ (by decide)]

/-- Witness for C1 at grid dimension 30 and pattern dimension 3. -/
theorem computeCenteringOffset_truncating_witness :
    (computeCenteringOffset 30 30 3 3).1 = Int.fdiv 27 2 :=
  computeCenteringOffset_truncating.2.1 30 3 (by decide)

/-- C6: for a non-empty cell list the bounding box satisfies
`min_x ≤ max_x` and `min_y ≤ max_y`, contains every input cell, and the
derived width and height are each at least 1. -/
theorem computeBoundingBox_bounds (cells : List Cell) (hne : cells ≠ []) :
    (computeBoundingBox cells).minX ≤ (computeBoundingBox cells).maxX ∧
    (computeBoundingBox cells).minY ≤ (computeBoundingBox cells).maxY ∧
    (∀ c ∈ cells,
      (computeBoundingBox cells).minX ≤ c.x ∧ c.x ≤ (computeBoundingBox cells).maxX ∧
      (computeBoundingBox cells).minY ≤ c.y ∧ c.y ≤ (computeBoundingBox cells).maxY) ∧
    1 ≤ patternCellWidth (computeBoundingBox cells) ∧
    1 ≤ patternCellHeight (computeBoundingBox cells) := by
  obtain ⟨h1, h2, h3, h4⟩ := foldBB_le_init cells { minX := 0, maxX := 0, minY := 0, maxY := 0 }
  have hxy : (computeBoundingBox cells).minX ≤ (computeBoundingBox cells).maxX :=
    le_trans h1 h2
  have hxy2 : (computeBoundingBox cells).minY ≤ (computeBoundingBox cells).maxY :=
    le_trans h3 h4
  refine ⟨hxy, hxy2, fun c hc => foldBB_mem cells _ c hc, ?_, ?_⟩
  · unfold patternCellWidth; omega
  · unfold patternCellHeight; omega

/-- Witness for C6 on the glider cell list. -/
theorem computeBoundingBox_bounds_witness :
    (computeBoundingBox [⟨1, 0⟩, ⟨2, 1⟩, ⟨0, 2⟩, ⟨1, 2⟩, ⟨2, 2⟩]).minX ≤
      (computeBoundingBox [⟨1, 0⟩, ⟨2, 1⟩, ⟨0, 2⟩, ⟨1, 2⟩, ⟨2, 2⟩]).maxX ∧
    (computeBoundingBox [⟨1, 0⟩, ⟨2, 1⟩, ⟨0, 2⟩, ⟨1, 2⟩, ⟨2, 2⟩]).minY ≤
      (computeBoundingBox [⟨1, 0⟩, ⟨2, 1⟩, ⟨0, 2⟩, ⟨1, 2⟩, ⟨2, 2⟩]).maxY ∧
    (∀ c ∈ [Cell.mk 1 0, Cell.mk 2 1, Cell.mk 0 2, Cell.mk 1 2, Cell.mk 2 2],
      (computeBoundingBox [⟨1, 0⟩, ⟨2, 1⟩, ⟨0, 2⟩, ⟨1, 2⟩, ⟨2, 2⟩]).minX ≤ c.x ∧
      c.x ≤ (computeBoundingBox [⟨1, 0⟩, ⟨2, 1⟩, ⟨0, 2⟩, ⟨1, 2⟩, ⟨2, 2⟩]).maxX ∧
      (computeBoundingBox [⟨1, 0⟩, ⟨2, 1⟩, ⟨0, 2⟩, ⟨1, 2⟩, ⟨2, 2⟩]).minY ≤ c.y ∧
      c.y ≤ (computeBoundingBox [⟨1, 0⟩, ⟨2, 1⟩, ⟨0, 2⟩, ⟨1, 2⟩, ⟨2, 2⟩]).maxY) ∧
    1 ≤ patternCellWidth (computeBoundingBox [⟨1, 0⟩, ⟨2, 1⟩, ⟨0, 2⟩, ⟨1, 2⟩, ⟨2, 2⟩]) ∧
    1 ≤ patternCellHeight (computeBoundingBox [⟨1, 0⟩, ⟨2, 1⟩, ⟨0, 2⟩, ⟨1, 2⟩, ⟨2, 2⟩]) :=
  computeBoundingBox_bounds [⟨1, 0⟩, ⟨2, 1⟩, ⟨0, 2⟩, ⟨1, 2⟩, ⟨2, 2⟩] (by decide)

/-- C7: `ToPixelRects` produces exactly one rectangle per input cell, in the
input order with no filtering, and the rectangle for the cell at any index
is `((x - min_x + off_x) * size, (y - min_y + off_y) * size, size, size)`. -/
theorem toPixelRects_pointwise (cells : List Cell) (minX minY offX offY cellSize : Int) :
    (toPixelRects cells minX minY offX offY cellSize).length = cells.length ∧
    ∀ i : Nat,
      (toPixelRects cells minX minY offX offY cellSize)[i]? =
        (cells[i]?).map fun c =>
          { x := (c.x - minX + offX) * cellSize
            y := (c.y - minY + offY) * cellSize
            w := cellSize
            h := cellSize } := by
  constructor
  · simp [toPixelRects]
  · intro i
    simp [toPixelRects, List.getElem?_map]

/-- C9: an empty cell list yields the bounding box `(0, 0, 0, 0)`. -/
theorem computeBoundingBox_empty :
    computeBoundingBox [] = { minX := 0, maxX := 0, minY := 0, maxY := 0 } :=
  rfl

/-- C10: the zero-seeded bounding box always contains the origin, and for a
cell list whose coordinates are all strictly positive the computed minima
are 0 — strictly below every actual coordinate, hence not the true
minima. -/
theorem computeBoundingBox_contains_origin (cells : List Cell) :
    ((computeBoundingBox cells).minX ≤ 0 ∧ 0 ≤ (computeBoundingBox cells).maxX ∧
     (computeBoundingBox cells).minY ≤ 0 ∧ 0 ≤ (computeBoundingBox cells).maxY) ∧
    ((∀ c ∈ cells, 0 < c.x ∧ 0 < c.y) →
      (computeBoundingBox cells).minX = 0 ∧ (computeBoundingBox cells).minY = 0 ∧
      ∀ c ∈ cells, (computeBoundingBox cells).minX < c.x ∧
        (computeBoundingBox cells).minY < c.y) := by
  obtain ⟨h1, h2, h3, h4⟩ := foldBB_le_init cells { minX := 0, maxX := 0, minY := 0, maxY := 0 }
  refine ⟨⟨h1, h2, h3, h4⟩, fun hpos => ?_⟩
  obtain ⟨e1, e2⟩ := foldBB_min_frozen cells { minX := 0, maxX := 0, minY := 0, maxY := 0 }
    (fun c hc => le_of_lt (hpos c hc).1) (fun c hc => le_of_lt (hpos c hc).2)
  refine ⟨e1, e2, fun c hc => ?_⟩
  rw [show (computeBoundingBox cells).minX = _ from e1,
      show (computeBoundingBox cells).minY = _ from e2]
  exact ⟨(hpos c hc).1, (hpos c hc).2⟩

/-- Witness for C10 on a cell list with strictly positive coordinates. -/
theorem computeBoundingBox_contains_origin_witness :
    (computeBoundingBox [⟨3, 4⟩, ⟨5, 6⟩]).minX = 0 ∧
    (computeBoundingBox [⟨3, 4⟩, ⟨5, 6⟩]).minY = 0 :=
  ⟨((computeBoundingBox_contains_origin [⟨3, 4⟩, ⟨5, 6⟩]).2 (by decide)).1,
   ((computeBoundingBox_contains_origin [⟨3, 4⟩, ⟨5, 6⟩]).2 (by decide)).2.1⟩

/-- Model of an nlohmann::json value (the vendored `includes/json.hpp`
dependency).  An integer JSON number is a `number_integer` (`int n`); a
non-integer JSON number is a `number_float` (`float num den`), modelled as
the exact fraction `num / den` with positive denominator `den` — every
finite double is such a rational, and truncation toward zero on this
representation is exactly `static_cast<int>`.  An `obj` node carries its
fields in document order; the access and iteration functions below account
for the fact that nlohmann::json stores object members in a `std::map`
keyed lexicographically. -/
inductive Json where
  | null : Json
  | bool (b : Bool) : Json
  | int (n : Int) : Json
  | float (num : Int) (den : Nat) : Json
  | str (s : String) : Json
  | arr (elems : List Json) : Json
  | obj (fields : List (String × Json)) : Json

/-- First-match lookup of a field name in an object field list. -/
def lookupKey (k : String) : List (String × Json) → Option Json
  | [] => none
  | (k2, v) :: rest => if k2 = k then some v else lookupKey k rest

/-- Byte-wise lexicographic strict comparison of two character lists,
modelling `std::less<std::string>` on the ASCII keys of the catalog. -/
def strLtB : List Char → List Char → Bool
  | [], [] => false
  | [], _ :: _ => true
  | _ :: _, [] => false
  | a :: as, b :: bs =>
    if a < b then true else if b < a then false else strLtB as bs

/-- Strict lexicographic order is asymmetric. -/
lemma strLtB_asymm (a b : List Char) (h : strLtB a b = true) : strLtB b a = false := by
  induction a generalizing b with
  | nil =>
    cases b with
    | nil => simp [strLtB] at h
    | cons d ds => simp [strLtB]
  | cons c cs ih =>
    cases b with
    | nil => simp [strLtB] at h
    | cons d ds =>
      simp only [strLtB] at h ⊢
      rcases lt_trichotomy c d with hcd | hcd | hcd
      · rw [if_neg (lt_asymm hcd), if_pos hcd]
      · subst hcd
        rw [if_neg (lt_irrefl c), if_neg (lt_irrefl c)] at h ⊢
        exact ih ds h
      · rw [if_neg (lt_asymm hcd), if_pos hcd] at h
        cases h

/-- Strict lexicographic order is transitive. -/
lemma strLtB_trans (a b c : List Char) (h1 : strLtB a b = true)
    (h2 : strLtB b c = true) : strLtB a c = true := by
  induction a generalizing b c with
  | nil =>
    cases b with
    | nil => simp [strLtB] at h1
    | cons d ds =>
      cases c with
      | nil => simp [strLtB] at h2
      | cons e es => simp [strLtB]
  | cons x xs ih =>
    cases b with
    | nil => simp [strLtB] at h1
    | cons d ds =>
      cases c with
      | nil => simp [strLtB] at h2
      | cons e es =>
        simp only [strLtB] at h1 h2 ⊢
        rcases lt_trichotomy x d with hxd | hxd | hxd
        · rcases lt_trichotomy d e with hde | hde | hde
          · rw [if_pos (lt_trans hxd hde)]
          · subst hde; rw [if_pos hxd]
          · rw [if_neg (lt_asymm hde), if_pos hde] at h2; cases h2
        · subst hxd
          rcases lt_trichotomy x e with hxe | hxe | hxe
          · rw [if_pos hxe]
          · subst hxe
            rw [if_neg (lt_irrefl x), if_neg (lt_irrefl x)] at h1 h2 ⊢
            exact ih ds es h1 h2
          · rw [if_neg (lt_asymm hxe), if_pos hxe] at h2; cases h2
        · rw [if_neg (lt_asymm hxd), if_pos hxd] at h1; cases h1

/-- Two character lists neither of which is lexicographically below the other
are equal. -/
lemma strLtB_connex (a b : List Char) (h1 : strLtB a b = false)
    (h2 : strLtB b a = false) : a = b := by
  induction a generalizing b with
  | nil =>
    cases b with
    | nil => rfl
    | cons d ds => simp [strLtB] at h1
  | cons c cs ih =>
    cases b with
    | nil => simp [strLtB] at h2
    | cons d ds =>
      simp only [strLtB] at h1 h2
      rcases lt_trichotomy c d with hcd | hcd | hcd
      · rw [if_pos hcd] at h1; cases h1
      · subst hcd
        rw [if_neg (lt_irrefl c), if_neg (lt_irrefl c)] at h1 h2
        rw [ih ds h1 h2]
      · rw [if_pos hcd] at h2; cases h2

/-- Non-strict key order on object fields: the first key is not
lexicographically above the second.  This is the order in which a
`std::map` stores its entries. -/
def keyLe (p q : String × Json) : Prop :=
  strLtB q.1.data p.1.data = false

instance : DecidableRel keyLe := fun p q => by
  unfold keyLe; infer_instance

instance : IsTotal (String × Json) keyLe := by
  constructor
  intro p q
  cases h : strLtB q.1.data p.1.data with
  | false => exact Or.inl h
  | true => exact Or.inr (strLtB_asymm _ _ h)

instance : IsTrans (String × Json) keyLe := by
  constructor
  intro p q s h1 h2
  unfold keyLe at h1 h2 ⊢
  cases h3 : strLtB s.1.data p.1.data with
  | false => rfl
  | true =>
    exfalso
    cases h4 : strLtB q.1.data s.1.data with
    | true =>
      have := strLtB_trans _ _ _ h4 h3
      rw [this] at h1; cases h1
    | false =>
      have heq := strLtB_connex _ _ h2 h4
      rw [heq] at h3
      rw [h1] at h3
      cases h3

/-- Stored order of an object field list: ascending by key, as in the
`std::map` that backs nlohmann::json objects.  For distinct keys the sorted
arrangement is unique, so any correct sort models the map faithfully. -/
def sortByKey (fields : List (String × Json)) : List (String × Json) :=
  List.insertionSort keyLe fields

/-- Membership test of nlohmann `contains`: false on every non-object. -/
def jContains (j : Json) (k : String) : Bool :=
  match j with
  | .obj fields => (lookupKey k fields).isSome
  | _ => false

/-- Read of `operator[]` under a `contains` guard: the stored value of the
key, `null` when absent (non-const `operator[]` inserts and returns
`null`). -/
def jGetKey (j : Json) (k : String) : Json :=
  match j with
  | .obj fields => (lookupKey k fields).getD .null
  | _ => .null

/-- Error signals raised by nlohmann::json as C++ exceptions: `typeError`
for converting a non-number to `int` (error 302), `indexError` for
`operator[]` with a string key on a non-object, non-null value
(error 305), and `invalidIterator` for calling `key()` on a non-object
iterator (error 207). -/
inductive JsonError where
  | typeError : JsonError
  | indexError : JsonError
  | invalidIterator : JsonError
deriving DecidableEq

/-- Non-const `operator[]` with a string key: on an object it returns the
field (or `null` after inserting it when absent); on `null` it first turns
the value into an object, so the read also yields `null`; on any other
value it throws error 305. -/
def jIndexRead (j : Json) (k : String) : Except JsonError Json :=
  match j with
  | .obj fields => .ok ((lookupKey k fields).getD .null)
  | .null => .ok .null
  | _ => .error .indexError

/-- Truncation of a float `num / den` toward zero, as performed by
`static_cast<int>(double)`. -/
def floatToInt (num : Int) (den : Nat) : Int :=
  Int.tdiv num den

/-- Conversion of a json value to `int`: integer numbers convert exactly,
float numbers convert by `static_cast` (truncation toward zero, without
throwing), everything else throws error 302. -/
def jToInt (j : Json) : Except JsonError Int :=
  match j with
  | .int n => .ok n
  | .float num den => .ok (floatToInt num den)
  | _ => .error .typeError

/-- Range-for iteration over a json value: an array yields its elements, an
object yields its stored values (in key order), `null` yields an empty
range, and any other primitive yields itself once. -/
def jIterate (j : Json) : List Json :=
  match j with
  | .arr elems => elems
  | .obj fields => (sortByKey fields).map Prod.snd
  | .null => []
  | v => [v]

/-- Enumerate, main.cpp lines 54-58: iterating the catalog object prints
`it.key()` for each entry, in the stored order of the underlying map. -/
def enumerateNames (j : Json) : List String :=
  match j with
  | .obj fields => (sortByKey fields).map Prod.fst
  | _ => []

/-- Whether the listing loop at main.cpp lines 54-58 throws: `it.key()` is
only valid on object iterators (error 207 otherwise), so iterating an
object never throws, a `null` or empty array yields an empty range and the
body never runs, and any other value with at least one iteration throws on
the first `it.key()` call. -/
def jIterKeyThrows (j : Json) : Bool :=
  match j with
  | .obj _ => false
  | .null => false
  | .arr [] => false
  | .arr (_ :: _) => true
  | _ => true

/-- ConfigError taxonomy of the pattern-library component. -/
inductive ConfigError where
  | missingSource : ConfigError
  | malformedDocument : ConfigError
  | missingCatalogKey : ConfigError
  | unknownPattern : ConfigError
  | malformedEntry : ConfigError
deriving DecidableEq

/-- Catalog selection, main.cpp lines 43-52: use `data["shapes"]` when the
key is present, else `data["patterns"]`, else fail. -/
def selectCatalog (data : Json) : Except ConfigError Json :=
  if jContains data "shapes" then .ok (jGetKey data "shapes")
  else if jContains data "patterns" then .ok (jGetKey data "patterns")
  else .error .missingCatalogKey

/-- Extraction of `pattern_json["size"][k]` as an `int`, main.cpp
lines 79-80. -/
def extractSize (entry : Json) (k : String) : Except JsonError Int :=
  match jIndexRead entry "size" with
  | .error e => .error e
  | .ok sizeJson =>
    match jIndexRead sizeJson k with
    | .error e => .error e
    | .ok v => jToInt v

/-- Extraction of one cell `{cell["x"], cell["y"]}`, main.cpp line 83. -/
def extractCell (c : Json) : Except JsonError Cell :=
  match jIndexRead c "x" with
  | .error e => .error e
  | .ok jx =>
    match jToInt jx with
    | .error e => .error e
    | .ok x =>
      match jIndexRead c "y" with
      | .error e => .error e
      | .ok jy =>
        match jToInt jy with
        | .error e => .error e
        | .ok y => .ok { x := x, y := y }

/-- Extraction of the whole cell loop, main.cpp lines 82-84: the first
throwing cell aborts the loop. -/
def extractCellList : List Json → Except JsonError (List Cell)
  | [] => .ok []
  | j :: js =>
    match extractCell j with
    | .error e => .error e
    | .ok c =>
      match extractCellList js with
      | .error e => .error e
      | .ok cs => .ok (c :: cs)

/-- Resolve, main.cpp lines 75-84: read the declared size, then iterate
`pattern_json["cells"]` collecting the cells. -/
def extractShape (nm : String) (entry : Json) : Except JsonError Shape :=
  match extractSize entry "w" with
  | .error e => .error e
  | .ok w =>
    match extractSize entry "h" with
    | .error e => .error e
    | .ok h =>
      match jIndexRead entry "cells" with
      | .error e => .error e
      | .ok cellsJson =>
        match extractCellList (jIterate cellsJson) with
        | .error e => .error e
        | .ok cs => .ok { name := nm, width := w, height := h, cells := cs }

/-- External interactions of Program_02: whether `patterns.json` opens,
the parse result (`none` models a parse exception caught at main.cpp
lines 36-41), the command-line or interactive pattern choice, and the
results of the three SDL calls. -/
structure EnvP02 where
  fileOpens : Bool
  parsed : Option Json
  argChoice : Option String
  stdinChoice : String
  sdlInitOk : Bool
  windowOk : Bool
  rendererOk : Bool

/-- Process outcome: a normal `return code` from `main` (with a flag for
whether a diagnostic line was written to the error stream), or abnormal
termination through an uncaught C++ exception. -/
inductive Outcome where
  | exited (code : Nat) (diag : Bool) : Outcome
  | aborted (e : JsonError) : Outcome
deriving DecidableEq

/-- Control flow of Program_02 `main` (main.cpp lines 25-188).  Every
explicit failure path writes a diagnostic and returns 1.  Two paths sit
outside the only try block (lines 36-41) and therefore terminate the
process abnormally when they throw: the listing loop at lines 54-58
(`it.key()` on a non-object, non-null, non-empty catalog value) and the
shape extraction at lines 75-84.  After a successful setup the event loop
runs until a quit or escape event and `main` returns 0. -/
def mainP02 (env : EnvP02) : Outcome :=
  if env.fileOpens = false then .exited 1 true
  else
    match env.parsed with
    | none => .exited 1 true
    | some data =>
      match selectCatalog data with
      | .error _ => .exited 1 true
      | .ok cat =>
        if jIterKeyThrows cat = true then .aborted .invalidIterator
        else
          let choice := env.argChoice.getD env.stdinChoice
          if jContains cat choice = false then .exited 1 true
          else
            match extractShape choice (jGetKey cat choice) with
            | .error e => .aborted e
            | .ok _ =>
              if env.sdlInitOk = false then .exited 1 true
              else if env.windowOk = false then .exited 1 true
              else if env.rendererOk = false then .exited 1 true
              else .exited 0 false

/-- External interactions of Program_00: the results of the three SDL
calls. -/
structure EnvP00 where
  sdlInitOk : Bool
  windowOk : Bool
  rendererOk : Bool

/-- Control flow of Program_00 `main` (Program_00 main.cpp lines 4-58):
each SDL failure writes a diagnostic and returns 1; otherwise the window
shows for five seconds and `main` returns 0. -/
def mainP00 (env : EnvP00) : Outcome :=
  if env.sdlInitOk = false then .exited 1 true
  else if env.windowOk = false then .exited 1 true
  else if env.rendererOk = false then .exited 1 true
  else .exited 0 false

/-- Configuration document whose `shapes` entry is empty while a non-empty
legacy `patterns` entry is also present. -/
def mixedDoc : Json :=
  .obj [("patterns", .obj [("glider", .obj [])]), ("shapes", .obj [])]

/-- C2 counterexample: on a document where the accepted key `shapes` is
present but empty and the accepted key `patterns` is present and
non-empty, `Load` selects the empty `shapes` object, not the present and
non-empty `patterns` catalog — presence alone decides, emptiness is never
checked. -/
theorem load_selects_present_key_cex :
    selectCatalog mixedDoc = Except.ok (Json.obj []) ∧
    jContains mixedDoc "patterns" = true ∧
    jGetKey mixedDoc "patterns" = Json.obj [("glider", Json.obj [])] ∧
    Json.obj ([] : List (String × Json)) ≠ Json.obj [("glider", Json.obj [])] := by
  refine ⟨rfl, rfl, rfl, ?_⟩
  intro h
  cases h

/-- C2 amended: `Load` uses the `shapes` value whenever that key is present
(regardless of emptiness), otherwise the `patterns` value when that key is
present, and fails with `ConfigError::missingCatalogKey` exactly when
neither accepted key is present. -/
theorem load_catalog_selection (data : Json) :
    (jContains data "shapes" = true →
      selectCatalog data = Except.ok (jGetKey data "shapes")) ∧
    (jContains data "shapes" = false → jContains data "patterns" = true →
      selectCatalog data = Except.ok (jGetKey data "patterns")) ∧
    (jContains data "shapes" = false → jContains data "patterns" = false →
      selectCatalog data = Except.error ConfigError.missingCatalogKey) := by
  refine ⟨fun h => ?_, fun h1 h2 => ?_, fun h1 h2 => ?_⟩
  · simp [selectCatalog, h]
  · simp [selectCatalog, h1, h2]
  · simp [selectCatalog, h1, h2]

/-- Witness for C2 on three concrete documents, one per selection branch. -/
theorem load_catalog_selection_witness :
    selectCatalog (Json.obj [("shapes", Json.obj [])]) = Except.ok (Json.obj []) ∧
    selectCatalog (Json.obj [("patterns", Json.null)]) = Except.ok Json.null ∧
    selectCatalog (Json.obj []) = Except.error ConfigError.missingCatalogKey :=
  ⟨(load_catalog_selection (Json.obj [("shapes", Json.obj [])])).1 rfl,
   (load_catalog_selection (Json.obj [("patterns", Json.null)])).2.1 rfl rfl,
   (load_catalog_selection (Json.obj [])).2.2 rfl rfl⟩

/-- Catalog entry whose single cell lacks the `x` field. -/
def badCellEntry : Json :=
  .obj [("size", .obj [("w", Json.int 3), ("h", Json.int 3)]),
        ("cells", .arr [.obj [("y", Json.int 0)]])]

/-- The glider entry of the scenario catalog. -/
def gliderEntry : Json :=
  .obj [("size", .obj [("w", Json.int 3), ("h", Json.int 3)]),
        ("cells", .arr [ .obj [("x", Json.int 1), ("y", Json.int 0)],
                         .obj [("x", Json.int 2), ("y", Json.int 1)],
                         .obj [("x", Json.int 0), ("y", Json.int 2)],
                         .obj [("x", Json.int 1), ("y", Json.int 2)],
                         .obj [("x", Json.int 2), ("y", Json.int 2)] ])]

/-- Cell list of the glider, in source order. -/
def gliderCells : List Cell := [⟨1, 0⟩, ⟨2, 1⟩, ⟨0, 2⟩, ⟨1, 2⟩, ⟨2, 2⟩]

/-- Document whose only shape has a cell lacking the `x` field. -/
def badCellDoc : Json := .obj [("shapes", .obj [("glider", badCellEntry)])]

/-- Environment in which the file opens, parses, and every SDL call
succeeds, but the requested shape is malformed. -/
def badCellEnv : EnvP02 :=
  { fileOpens := true, parsed := some badCellDoc, argChoice := some "glider",
    stdinChoice := "", sdlInitOk := true, windowOk := true, rendererOk := true }

/-- Well-formed document holding the glider. -/
def gliderDoc : Json := .obj [("shapes", .obj [("glider", gliderEntry)])]

/-- Configuration document whose keys appear in the source in descending
order. -/
def outOfOrderDoc : Json := .obj [("b", Json.null), ("a", Json.null)]

/-- C4 counterexample: a catalog whose source document lists key `b` before
key `a` is enumerated as `a` then `b` — the stored (lexicographic) order of
the underlying map, not the insertion order of the source document. -/
theorem enumerate_order_cex :
    enumerateNames outOfOrderDoc = ["a", "b"] ∧
    (["a", "b"] : List String) ≠ ["b", "a"] := by
  refine ⟨rfl, by decide⟩

/-- C4 amended: for every valid configuration document with a non-empty
catalog, `Enumerate` yields exactly the catalog's keys, each exactly once,
is restartable, and yields them in ascending lexicographic key order (the
stored order of the map backing the document), which need not coincide
with the insertion order of the source document. -/
theorem enumerate_keys_sorted (fields : List (String × Json))
    (hnd : (fields.map Prod.fst).Nodup) (hne : fields ≠ []) :
    (∀ k, k ∈ enumerateNames (Json.obj fields) ↔ k ∈ fields.map Prod.fst) ∧
    (∀ k, k ∈ fields.map Prod.fst → (enumerateNames (Json.obj fields)).count k = 1) ∧
    enumerateNames (Json.obj fields) = enumerateNames (Json.obj fields) ∧
    List.Pairwise (fun a b => strLtB b.data a.data = false)
      (enumerateNames (Json.obj fields)) := by
  have hperm : List.Perm (sortByKey fields) fields := List.perm_insertionSort keyLe fields
  have hmap : List.Perm ((sortByKey fields).map Prod.fst) (fields.map Prod.fst) :=
    hperm.map Prod.fst
  have henum : enumerateNames (Json.obj fields) = (sortByKey fields).map Prod.fst := rfl
  refine ⟨?_, ?_, rfl, ?_⟩
  · intro k
    rw [henum]
    exact hmap.mem_iff
  · intro k hk
    rw [henum, hmap.count_eq]
    exact List.count_eq_one_of_mem hnd hk
  · rw [henum, List.pairwise_map]
    exact List.sorted_insertionSort keyLe fields

/-- Witness for C4 on the two-key document. -/
theorem enumerate_keys_sorted_witness :
    (enumerateNames outOfOrderDoc).count "a" = 1 ∧
    List.Pairwise (fun a b => strLtB b.data a.data = false)
      (enumerateNames outOfOrderDoc) :=
  ⟨(enumerate_keys_sorted [("b", Json.null), ("a", Json.null)]
      (by decide) (List.cons_ne_nil _ _)).2.1 "a" (by decide),
   (enumerate_keys_sorted [("b", Json.null), ("a", Json.null)]
      (by decide) (List.cons_ne_nil _ _)).2.2.2⟩

/-- C5: on the glider catalog entry with a 30-by-30 grid and cell size 20,
the pipeline resolves the shape with its five cells in source order,
computes bounding box `(0, 2, 0, 2)`, pattern size 3-by-3, centering
offset `(13, 13)`, and maps the first cell `(1, 0)` to the pixel rectangle
`(280, 260, 20, 20)`. -/
theorem glider_scenario :
    extractShape "glider" gliderEntry =
      Except.ok { name := "glider", width := 3, height := 3, cells := gliderCells } ∧
    computeBoundingBox gliderCells = { minX := 0, maxX := 2, minY := 0, maxY := 2 } ∧
    patternCellWidth (computeBoundingBox gliderCells) = 3 ∧
    patternCellHeight (computeBoundingBox gliderCells) = 3 ∧
    computeCenteringOffset 30 30 3 3 = (13, 13) ∧
    (toPixelRects gliderCells 0 0 13 13 20)[0]? =
      some { x := 280, y := 260, w := 20, h := 20 } :=
  ⟨rfl, rfl, rfl, rfl, rfl, rfl⟩

/-- C8 counterexample: loading a catalog entry whose cell lacks `x` — a load
failure — terminates the process through an uncaught type error, not with
exit status 1 and not with status 0. -/
theorem exit_codes_cex :
    mainP02 badCellEnv = Outcome.aborted JsonError.typeError ∧
    mainP02 badCellEnv ≠ Outcome.exited 1 true ∧
    mainP02 badCellEnv ≠ Outcome.exited 0 false := by
  refine ⟨rfl, by decide, by decide⟩

/-- C8 amended: both programs exit with status 0 on success or normal quit
and with status 1, writing a diagnostic line, on a missing-file, parse,
missing-catalog-key, unknown-pattern, SDL-init, window, or renderer
failure; but two load-failure paths terminate the process through an
uncaught exception rather than exiting with status 1: a catalog value that
is neither an object, nor null, nor an empty array makes the listing
loop's `it.key()` throw, and a malformed catalog entry makes the shape
extraction throw. -/
theorem exit_codes_amended :
    (∀ env : EnvP02, env.fileOpens = false → mainP02 env = Outcome.exited 1 true) ∧
    (∀ env : EnvP02, env.fileOpens = true → env.parsed = none →
      mainP02 env = Outcome.exited 1 true) ∧
    (∀ (env : EnvP02) (data : Json), env.fileOpens = true → env.parsed = some data →
      selectCatalog data = Except.error ConfigError.missingCatalogKey →
      mainP02 env = Outcome.exited 1 true) ∧
    (∀ (env : EnvP02) (data cat : Json), env.fileOpens = true → env.parsed = some data →
      selectCatalog data = Except.ok cat → jIterKeyThrows cat = true →
      mainP02 env = Outcome.aborted JsonError.invalidIterator) ∧
    (∀ (env : EnvP02) (data cat : Json), env.fileOpens = true → env.parsed = some data →
      selectCatalog data = Except.ok cat → jIterKeyThrows cat = false →
      jContains cat (env.argChoice.getD env.stdinChoice) = false →
      mainP02 env = Outcome.exited 1 true) ∧
    (∀ (env : EnvP02) (data cat : Json) (e : JsonError), env.fileOpens = true →
      env.parsed = some data → selectCatalog data = Except.ok cat →
      jIterKeyThrows cat = false →
      jContains cat (env.argChoice.getD env.stdinChoice) = true →
      extractShape (env.argChoice.getD env.stdinChoice)
        (jGetKey cat (env.argChoice.getD env.stdinChoice)) = Except.error e →
      mainP02 env = Outcome.aborted e) ∧
    (∀ (env : EnvP02) (data cat : Json) (sh : Shape), env.fileOpens = true →
      env.parsed = some data → selectCatalog data = Except.ok cat →
      jIterKeyThrows cat = false →
      jContains cat (env.argChoice.getD env.stdinChoice) = true →
      extractShape (env.argChoice.getD env.stdinChoice)
        (jGetKey cat (env.argChoice.getD env.stdinChoice)) = Except.ok sh →
      (env.sdlInitOk = false ∨ env.windowOk = false ∨ env.rendererOk = false) →
      mainP02 env = Outcome.exited 1 true) ∧
    (∀ (env : EnvP02) (data cat : Json) (sh : Shape), env.fileOpens = true →
      env.parsed = some data → selectCatalog data = Except.ok cat →
      jIterKeyThrows cat = false →
      jContains cat (env.argChoice.getD env.stdinChoice) = true →
      extractShape (env.argChoice.getD env.stdinChoice)
        (jGetKey cat (env.argChoice.getD env.stdinChoice)) = Except.ok sh →
      env.sdlInitOk = true → env.windowOk = true → env.rendererOk = true →
      mainP02 env = Outcome.exited 0 false) ∧
    (∀ env : EnvP00,
      (env.sdlInitOk = false ∨ env.windowOk = false ∨ env.rendererOk = false) →
      mainP00 env = Outcome.exited 1 true) ∧
    (∀ env : EnvP00, env.sdlInitOk = true → env.windowOk = true →
      env.rendererOk = true → mainP00 env = Outcome.exited 0 false) := by
  refine ⟨?_, ?_, ?_, ?_, ?_, ?_, ?_, ?_, ?_, ?_⟩
  · intro env h
    simp [mainP02, h]
  · intro env h1 h2
    simp [mainP02, h1, h2]
  · intro env data h1 h2 h3
    simp [mainP02, h1, h2, h3]
  · intro env data cat h1 h2 h3 h4
    simp [mainP02, h1, h2, h3, h4]
  · intro env data cat h1 h2 h3 h4 h5
    simp [mainP02, h1, h2, h3, h4, h5]
  · intro env data cat e h1 h2 h3 h4 h5 h6
    simp [mainP02, h1, h2, h3, h4, h5, h6]
  · intro env data cat sh h1 h2 h3 h4 h5 h6 h7
    rcases h7 with h7 | h7 | h7 <;> simp [mainP02, h1, h2, h3, h4, h5, h6, h7]
  · intro env data cat sh h1 h2 h3 h4 h5 h6 h7 h8 h9
    simp [mainP02, h1, h2, h3, h4, h5, h6, h7, h8, h9]
  · intro env h
    rcases h with h | h | h <;> simp [mainP00, h]
  · intro env h1 h2 h3
    simp [mainP00, h1, h2, h3]

/-- Witness for C8: one concrete environment per branch of the amended
statement. -/
theorem exit_codes_amended_witness :
    mainP02 { fileOpens := false, parsed := none, argChoice := none, stdinChoice := "",
              sdlInitOk := true, windowOk := true, rendererOk := true } =
      Outcome.exited 1 true ∧
    mainP02 { fileOpens := true, parsed := none, argChoice := none, stdinChoice := "",
              sdlInitOk := true, windowOk := true, rendererOk := true } =
      Outcome.exited 1 true ∧
    mainP02 { fileOpens := true, parsed := some (Json.obj []), argChoice := none,
              stdinChoice := "", sdlInitOk := true, windowOk := true, rendererOk := true } =
      Outcome.exited 1 true ∧
    mainP02 { fileOpens := true, parsed := some (Json.obj [("shapes", Json.int 5)]),
              argChoice := none, stdinChoice := "", sdlInitOk := true, windowOk := true,
              rendererOk := true } =
      Outcome.aborted JsonError.invalidIterator ∧
    mainP02 { fileOpens := true, parsed := some gliderDoc, argChoice := some "toad",
              stdinChoice := "", sdlInitOk := true, windowOk := true, rendererOk := true } =
      Outcome.exited 1 true ∧
    mainP02 badCellEnv = Outcome.aborted JsonError.typeError ∧
    mainP02 { fileOpens := true, parsed := some gliderDoc, argChoice := some "glider",
              stdinChoice := "", sdlInitOk := false, windowOk := true, rendererOk := true } =
      Outcome.exited 1 true ∧
    mainP02 { fileOpens := true, parsed := some gliderDoc, argChoice := some "glider",
              stdinChoice := "", sdlInitOk := true, windowOk := true, rendererOk := true } =
      Outcome.exited 0 false ∧
    mainP00 { sdlInitOk := false, windowOk := true, rendererOk := true } =
      Outcome.exited 1 true ∧
    mainP00 { sdlInitOk := true, windowOk := true, rendererOk := true } =
      Outcome.exited 0 false :=
  ⟨exit_codes_amended.1 _ rfl,
   exit_codes_amended.2.1 _ rfl rfl,
   exit_codes_amended.2.2.1 _ (Json.obj []) rfl rfl rfl,
   exit_codes_amended.2.2.2.1 _ (Json.obj [("shapes", Json.int 5)]) (Json.int 5)
     rfl rfl rfl rfl,
   exit_codes_amended.2.2.2.2.1 _ gliderDoc (jGetKey gliderDoc "shapes")
     rfl rfl rfl rfl rfl,
   exit_codes_amended.2.2.2.2.2.1 _ badCellDoc (jGetKey badCellDoc "shapes")
     JsonError.typeError rfl rfl rfl rfl rfl rfl,
   exit_codes_amended.2.2.2.2.2.2.1 _ gliderDoc (jGetKey gliderDoc "shapes")
     { name := "glider", width := 3, height := 3, cells := gliderCells }
     rfl rfl rfl rfl rfl rfl (Or.inl rfl),
   exit_codes_amended.2.2.2.2.2.2.2.1 _ gliderDoc (jGetKey gliderDoc "shapes")
     { name := "glider", width := 3, height := 3, cells := gliderCells }
     rfl rfl rfl rfl rfl rfl rfl rfl rfl,
   exit_codes_amended.2.2.2.2.2.2.2.2.1 _ (Or.inl rfl),
   exit_codes_amended.2.2.2.2.2.2.2.2.2 _ rfl rfl rfl⟩

end GameOfLife
